import Mathlib

/-!
Verification of the page-composition and routing layer of the
10x-magic-docs repository.

The embedding follows the two source files:

* `App.tsx` (the router): a `createBrowserRouter` call registering four
  routes, each route's element being the `Layout` component wrapping the
  route's page component.
* `AstroPage.tsx`: a React function component of no props whose body is a
  fixed ordered sequence of content-block elements, each constructed with
  literal configuration data.

The content-block renderer components (`TextBlock`, `CodeSnippet`, `Quiz`,
`Resources`, `MermaidDiagram`) and the `Layout` component are referenced by
the sources but their own code is not part of the repository snapshot;
where a property depends on their behavior, the corresponding definition is
modelled from the specification and says so in its doc comment.
-/

/-- One selectable option of a quiz: the `{ id, text }` records in the
`options` array of a `Quiz` element's `question` prop. -/
structure QuizOption where
  id : String
  text : String
deriving DecidableEq

/-- The `question` prop of a `Quiz` element: question text, ordered option
list, the id of the correct option, and an explanation string. -/
structure QuizQuestion where
  question : String
  options : List QuizOption
  correctAnswer : String
  explanation : String
deriving DecidableEq

/-- One entry of the `links` array of a `Resources` element. -/
structure ResourceLink where
  title : String
  url : String
  description : String
deriving DecidableEq

/-- A content block as authored in a page component: a tagged variant over
the five block elements used in `AstroPage.tsx`, each constructor carrying
the props of the corresponding element. -/
inductive ContentBlock where
  | TextBlock (header : String) (text : String)
  | CodeSnippet (language : String) (fileName : String) (code : String)
  | Quiz (title : String) (question : QuizQuestion)
  | Resources (title : String) (links : List ResourceLink)
  | MermaidDiagram (diagramPath : String) (caption : String)
deriving DecidableEq

/-- The kind tag of a content block. -/
inductive BlockKind where
  | text
  | code
  | quiz
  | resources
  | diagram
deriving DecidableEq

/-- The kind of a content block. -/
def blockKind : ContentBlock → BlockKind
  | .TextBlock _ _ => .text
  | .CodeSnippet _ _ _ => .code
  | .Quiz _ _ => .quiz
  | .Resources _ _ => .resources
  | .MermaidDiagram _ _ => .diagram

/-- The heading rendered by AstroPage above its content blocks. -/
def astroPageTitle : String :=
  "Astro: The Web Framework for Content-Driven Websites"

/-- The ordered sequence of content blocks authored in `AstroPage.tsx`,
each block carrying its literal configuration from the source. -/
def AstroPageBlocks : List ContentBlock := [
  ContentBlock.TextBlock
    "The Problem Space: JavaScript Bloat in Content-Heavy Websites"
    "Modern web development has led to JavaScript bundle sizes growing exponentially, often delivering hundreds of kilobytes of unused code to users. Content-driven websites like blogs, documentation sites, and marketing pages suffer from this \x27JavaScript tax\x27 - loading entire React/Vue applications for pages that are primarily static content.\n\n**Key challenges Astro addresses:**\n\n- **Bundle Size Inflation**: Traditional SPAs ship framework code even for static pages\n- **Performance Degradation**: Heavy JavaScript impacts Core Web Vitals and user experience\n- **SEO and Accessibility**: Client-side rendering delays content availability to search engines and screen readers\n- **Developer Complexity**: Framework lock-in and steep learning curves for simple content sites\n- **Build Performance**: Complex bundling and optimization processes for static content\n\nAstro introduces a fundamentally different approach: **islands of interactivity** in a sea of static HTML, allowing developers to build fast, content-focused websites without sacrificing modern development features.",
  ContentBlock.MermaidDiagram "/diagrams/astro-architecture.mmd" "Astro\x27s island architecture showing selective hydration and static generation",
  ContentBlock.TextBlock
    "Conceptual Architecture: Islands of Interactivity"
    "Astro\x27s architecture centers on **component islands** - isolated, interactive components surrounded by static HTML. This approach fundamentally differs from traditional single-page applications by treating interactivity as an enhancement rather than a requirement.\n\n**Core Architectural Principles:**\n\n1. **Server-First Rendering**: Pages are rendered to HTML on the server by default, eliminating client-side JavaScript for static content\n\n2. **Selective Hydration**: Interactive components are hydrated independently, only when and where needed\n\n3. **Framework Agnosticism**: Use any UI framework (React, Vue, Svelte, Solid) or none at all with Astro components\n\n4. **File-Based Routing**: Pages are created by placing \x60.astro\x60 files in the \x60src/pages/\x60 directory\n\n5. **Content Collections**: Type-safe content management with automatic TypeScript generation\n\n**Build System Integration:**\n\n- **Vite-Powered**: Leverages Vite\x27s fast development server and optimized production builds\n- **Asset Optimization**: Automatic image optimization, CSS processing, and font loading\n- **Deployment Flexibility**: Output formats include static sites, server-side rendering, and edge functions\n\nThis architecture enables **zero-JavaScript websites by default**, with progressive enhancement through client directives like \x60client:load\x60, \x60client:idle\x60, and \x60client:visible\x60.",
  ContentBlock.CodeSnippet "javascript" "astro.config.mjs"
    "import \x7b defineConfig \x7d from \x27astro/config\x27;\nimport react from \x27@astrojs/react\x27;\nimport tailwind from \x27@astrojs/tailwind\x27;\n\n// https://astro.build/config\nexport default defineConfig(\x7b\n  integrations: [react(), tailwind()],\n  output: \x27static\x27, // \x27static\x27 | \x27server\x27 | \x27hybrid\x27\n  build: \x7b\n    inlineStylesheets: \x27auto\x27,\n  \x7d,\n  image: \x7b\n    service: \x7b\n      entrypoint: \x27astro/assets/services/sharp\x27\n    \x7d\n  \x7d\n\x7d);",
  ContentBlock.TextBlock
    "Practical Implementation: Building Content-Driven Sites"
    "Astro excels at building content-heavy websites with minimal JavaScript overhead. The development workflow combines familiar web technologies with powerful content management features.\n\n**Project Structure and Conventions:**\n\n- **\x60src/pages/\x60**: File-based routing with \x60.astro\x60, \x60.md\x60, \x60.mdx\x60 files\n- **\x60src/components/\x60**: Reusable components with framework mixing support\n- **\x60src/layouts/\x60**: Page templates with shared structure\n- **\x60src/content/\x60**: Type-safe content collections with schema validation\n- **\x60public/\x60**: Static assets served at root path\n\n**Content Collections API:**\n\nAstro\x27s content collections provide type-safe content management with automatic schema validation and TypeScript generation. Collections are defined in \x60src/content/config.ts\x60 and content is stored in \x60src/content/[collection]/\x60 directories.\n\n**Build Output Options:**\n\n- **Static Generation** (\x60output: \x27static\x27\x60): Pre-built HTML files for maximum performance\n- **Server-Side Rendering** (\x60output: \x27server\x27\x60): Dynamic rendering with adapters for various platforms\n- **Hybrid Rendering** (\x60output: \x27hybrid\x27\x60): Mix of static and dynamic pages\n\n**Client Directives for Interactivity:**\n\n- \x60client:load\x60: Immediate hydration on page load\n- \x60client:idle\x60: Hydration after page becomes idle\n- \x60client:visible\x60: Hydration when component enters viewport\n- \x60client:media\x60: Hydration based on media queries\n- \x60server:defer\x60: Server islands with fallback content\n\nThis approach enables developers to build sophisticated websites that perform like static sites while retaining the flexibility of modern web frameworks.",
  ContentBlock.CodeSnippet "astro" "src/pages/blog/[...slug].astro"
    "---\n// Dynamic route for blog posts\nimport \x7b getCollection \x7d from \x27astro:content\x27;\nimport Layout from \x27../../layouts/BlogLayout.astro\x27;\n\nexport async function getStaticPaths() \x7b\n  const blogEntries = await getCollection(\x27blog\x27);\n  return blogEntries.map(entry => (\x7b\n    params: \x7b slug: entry.slug \x7d,\n    props: \x7b entry \x7d,\n  \x7d));\n\x7d\n\nconst \x7b entry \x7d = Astro.props;\nconst \x7b Content \x7d = await entry.render();\n---\n\n<Layout title=\x7bentry.data.title\x7d>\n  <article class=\"prose prose-lg max-w-none\">\n    <header class=\"mb-8\">\n      <h1 class=\"text-4xl font-bold text-gray-900 mb-4\">\n        \x7bentry.data.title\x7d\n      </h1>\n      <p class=\"text-gray-600 text-lg\">\n        \x7bentry.data.description\x7d\n      </p>\n      <time class=\"text-sm text-gray-500\">\n        \x7bentry.data.publishDate.toLocaleDateString()\x7d\n      </time>\n    </header>\n\n    <!-- Rendered content from Markdown/MDX -->\n    <Content />\n  </article>\n\n  <!-- Interactive comment component (React island) -->\n  <div class=\"mt-12\">\n    <Comments client:load postId=\x7bentry.data.postId\x7d />\n  </div>\n</Layout>",
  ContentBlock.Quiz "Understanding Astro\x27s Island Architecture"
    (QuizQuestion.mk
      "What is the primary advantage of Astro\x27s island architecture over traditional single-page applications?"
      [QuizOption.mk "A" "It eliminates the need for HTML entirely",
        QuizOption.mk "B" "It allows selective hydration, shipping zero JavaScript by default for static content",
        QuizOption.mk "C" "It forces all components to be interactive",
        QuizOption.mk "D" "It requires every page to be server-side rendered"]
      "B"
      "Astro\x27s island architecture allows components to be selectively hydrated, meaning static content ships as pure HTML/CSS without JavaScript, while interactive components are hydrated independently. This results in dramatically smaller bundle sizes and better performance for content-driven sites."),
  ContentBlock.TextBlock
    "Advanced Features: Content Collections and Type Safety"
    "Astro\x27s Content Collections API provides a powerful, type-safe way to manage content with automatic validation and TypeScript integration. This feature transforms content management from error-prone file operations to a robust, developer-friendly system.\n\n**Schema Definition:**\n\nContent collections use Zod schemas to define content structure, enabling runtime validation and automatic TypeScript type generation. This ensures content integrity and provides excellent developer experience with full IntelliSense support.\n\n**Content Organization:**\n\nCollections are stored in \x60src/content/[collection]/\x60 directories, supporting Markdown, MDX, and JSON formats. Each collection can have its own schema, allowing for flexible content modeling.\n\n**Query and Rendering:**\n\nThe \x60getCollection()\x60 and \x60getEntry()\x60 functions provide efficient content querying with filtering and sorting capabilities. Content is rendered using the \x60.render()\x60 method, which processes frontmatter and returns the content body.\n\n**Integration Ecosystem:**\n\nAstro\x27s adapter system enables deployment to various platforms including Netlify, Vercel, Cloudflare, and traditional servers. Integrations extend functionality with React, Vue, Tailwind CSS, and specialized tools for images, fonts, and SEO.\n\n**Performance Optimization:**\n\nBuilt-in optimizations include automatic image processing, CSS optimization, font loading strategies, and critical resource hints. The build system analyzes dependencies to minimize bundle sizes and optimize loading performance.\n\nThis combination of features makes Astro particularly well-suited for documentation sites, blogs, marketing pages, and any content-heavy application where performance and developer experience are paramount.",
  ContentBlock.CodeSnippet "typescript" "src/content/config.ts"
    "import \x7b defineCollection, z \x7d from \x27astro:content\x27;\n\n// Blog collection schema\nconst blogCollection = defineCollection(\x7b\n  type: \x27content\x27, // \x27content\x27 for Markdown/MDX, \x27data\x27 for JSON/YAML\n  schema: z.object(\x7b\n    title: z.string(),\n    description: z.string(),\n    publishDate: z.date(),\n    author: z.string(),\n    tags: z.array(z.string()),\n    draft: z.boolean().default(false),\n    image: z.object(\x7b\n      src: z.string(),\n      alt: z.string(),\n    \x7d).optional(),\n  \x7d),\n\x7d);\n\n// Product collection schema\nconst productCollection = defineCollection(\x7b\n  type: \x27data\x27,\n  schema: z.object(\x7b\n    name: z.string(),\n    price: z.number(),\n    description: z.string(),\n    features: z.array(z.string()),\n    category: z.enum([\x27software\x27, \x27hardware\x27, \x27service\x27]),\n  \x7d),\n\x7d);\n\nexport const collections = \x7b\n  blog: blogCollection,\n  products: productCollection,\n\x7d;",
  ContentBlock.Quiz "Astro Content Collections"
    (QuizQuestion.mk
      "What is the primary benefit of using Astro\x27s Content Collections API over traditional file-based content management?"
      [QuizOption.mk "A" "It automatically generates HTML from content files",
        QuizOption.mk "B" "It provides type-safe content with schema validation and automatic TypeScript generation",
        QuizOption.mk "C" "It eliminates the need for frontmatter in Markdown files",
        QuizOption.mk "D" "It converts all content to JSON format automatically"]
      "B"
      "Content Collections provide type safety through Zod schemas, enabling automatic TypeScript generation, runtime validation, and excellent developer experience with IntelliSense. This prevents content-related bugs and provides compile-time guarantees about content structure."),
  ContentBlock.Resources "Essential Astro Resources"
    [ResourceLink.mk "Official Astro Documentation" "https://docs.astro.build/" "Comprehensive documentation covering all Astro features, guides, and API references",
        ResourceLink.mk "Astro Tutorial" "https://docs.astro.build/en/tutorial/0-introduction/" "Step-by-step tutorial for building your first Astro website",
        ResourceLink.mk "Astro Islands Guide" "https://docs.astro.build/en/concepts/islands/" "Deep dive into Astro\x27s island architecture and selective hydration",
        ResourceLink.mk "Content Collections" "https://docs.astro.build/en/guides/content-collections/" "Guide to using Astro\x27s type-safe content management system",
        ResourceLink.mk "Astro Integrations" "https://docs.astro.build/en/guides/integrations-guide/" "Official and community integrations for extending Astro functionality",
        ResourceLink.mk "Astro Discord Community" "https://astro.build/chat" "Active community forum for questions, discussions, and getting help",
        ResourceLink.mk "Awesome Astro" "https://github.com/one-aalam/awesome-astro" "Curated list of Astro resources, themes, tools, and integrations"]
]

/-- The four page components imported and registered by `App.tsx`. -/
inductive Page where
  | HomePage
  | GithubActionsPage
  | PyTorchPage
  | AstroPage
deriving DecidableEq

/-- A route element as written in `App.tsx`: either the `Layout` component
applied to a page component, or a bare page component (the latter never
occurs in the source, but the element type does not force the wrapping). -/
inductive Element where
  | Layout (child : Page)
  | Bare (child : Page)
deriving DecidableEq

/-- One entry of the array passed to `createBrowserRouter`. -/
structure RouteEntry where
  path : String
  element : Element
deriving DecidableEq

/-- The route table passed to `createBrowserRouter` in `App.tsx`, in source
order. -/
def router : List RouteEntry := [
  ⟨"/", Element.Layout Page.HomePage⟩,
  ⟨"/docs/github-actions", Element.Layout Page.GithubActionsPage⟩,
  ⟨"/docs/pytorch", Element.Layout Page.PyTorchPage⟩,
  ⟨"/docs/astro", Element.Layout Page.AstroPage⟩
]

/-- Route lookup: exact string match of the incoming path against the
registered paths, first match wins. All registered paths in `App.tsx` are
literal, so `createBrowserRouter` matching reduces to exact comparison. -/
def matchRoute (path : String) : Option RouteEntry :=
  router.find? (fun r => r.path == path)

/-- The outcome of a navigation: either the element of the matched route is
displayed, or the not-found behavior results. -/
inductive RenderResult where
  | display (e : Element)
  | notFound
deriving DecidableEq

/-- Modelled from the spec: the router's dispatch on an incoming path.
`App.tsx` delegates the actual dispatch (and the not-found error page) to
the external `react-router-dom` collaborator, whose code is not part of the
repository; the spec states that an unmatched path yields a generic
not-found page rather than a crash, which this total function realizes. -/
def navigate (path : String) : RenderResult :=
  match matchRoute path with
  | some r => RenderResult.display r.element
  | none => RenderResult.notFound

/-- Modelled from the spec: the block sequences of `HomePage`,
`GithubActionsPage` and `PyTorchPage`, whose sources are not part of the
repository snapshot. The spec only says each page is a fixed authored
sequence of blocks; their content is unspecified here and no theorem
depends on it. -/
def HomePageBlocks : List ContentBlock := []

/-- Modelled from the spec: see `HomePageBlocks`. -/
def GithubActionsPageBlocks : List ContentBlock := []

/-- Modelled from the spec: see `HomePageBlocks`. -/
def PyTorchPageBlocks : List ContentBlock := []

/-- The authored block sequence of each page component. A React function
component of no props renders exactly its authored element sequence, so
the rendering of a page is its authored block list. -/
def pageBlocks : Page → List ContentBlock
  | .HomePage => HomePageBlocks
  | .GithubActionsPage => GithubActionsPageBlocks
  | .PyTorchPage => PyTorchPageBlocks
  | .AstroPage => AstroPageBlocks

/-- Rendering a route element: `Layout` wraps the page with shared chrome
and renders the page's blocks unchanged inside it. -/
def renderElement : Element → List ContentBlock
  | .Layout p => pageBlocks p
  | .Bare p => pageBlocks p

/-- The block sequence displayed after navigating to a path, or `none` for
the not-found outcome. -/
def renderNav (path : String) : Option (List ContentBlock) :=
  match navigate path with
  | RenderResult.display e => some (renderElement e)
  | RenderResult.notFound => none

/-- The quiz questions occurring in a page's block sequence, in order. -/
def quizzesOf (blocks : List ContentBlock) : List QuizQuestion :=
  blocks.filterMap (fun b =>
    match b with
    | ContentBlock.Quiz _ q => some q
    | _ => none)

/-- The feedback the quiz renderer shows after the viewer selects an
option. -/
structure QuizFeedback where
  correct : Bool
  explanation : String
deriving DecidableEq

/-- Modelled from the spec: the `Quiz` renderer component, whose source is
not part of the repository snapshot. Per the spec, on selection of exactly
one option the renderer reveals whether the selected option's id matches
the configured correct-answer id and displays the configured explanation. -/
def selectOption (q : QuizQuestion) (optId : String) : QuizFeedback :=
  ⟨optId == q.correctAnswer, q.explanation⟩

/-- A rendered outbound link of a `Resources` block. -/
structure RenderedLink where
  dest : String
  label : String
deriving DecidableEq

/-- Modelled from the spec: the `Resources` renderer component, whose
source is not part of the repository snapshot. Per the spec it produces one
outbound link per configured entry, in order, each link's destination being
the entry's configured url. -/
def renderResources (links : List ResourceLink) : List RenderedLink :=
  links.map (fun l => ⟨l.url, l.title⟩)

/-- A block after page rendering with external assets taken into account:
non-diagram blocks render as authored; a diagram block renders its resolved
asset, or degrades to a placeholder when the asset is missing. -/
inductive RenderedBlock where
  | plain (b : ContentBlock)
  | diagram (definition : String) (caption : String)
  | placeholder (caption : String)
deriving DecidableEq

/-- Modelled from the spec: the `MermaidDiagram` renderer component, whose
source is not part of the repository snapshot. Per the spec the external
diagram-rendering collaborator resolves `diagramPath` to a diagram
definition and fails gracefully (empty or placeholder state) when the asset
is missing; `assets` is the resolution function of that collaborator. -/
def renderBlockWithAssets (assets : String → Option String) : ContentBlock → RenderedBlock
  | ContentBlock.MermaidDiagram p c =>
    match assets p with
    | some d => RenderedBlock.diagram d c
    | none => RenderedBlock.placeholder c
  | b => RenderedBlock.plain b

/-- Page rendering under an asset-resolution environment: each authored
block renders independently; no block failure aborts the others. -/
def renderPageWithAssets (assets : String → Option String) (blocks : List ContentBlock) : List RenderedBlock :=
  blocks.map (renderBlockWithAssets assets)

/-- Transient UI state surrounding a render: the currently selected quiz
option per quiz, keyed by position. `AstroPage` reads none of it. -/
structure UIState where
  quizSelections : List (Option String)
deriving DecidableEq

/-- The rendering of `AstroPage` as a function of the surrounding transient
UI state: the component takes no props and its body contains no conditional
branching, so the authored block sequence is emitted regardless of the
state. -/
def renderAstroPage (_s : UIState) : List ContentBlock :=
  AstroPageBlocks

/-- Modelled from the spec: the selection state of a freshly mounted quiz
block; transient UI selection state resets on navigation, so a fresh mount
has no selected option. -/
def mountQuizSelection : Option String :=
  none

/-- The link lists of the `Resources` blocks of a page, in order. -/
def resourceLinksOf (blocks : List ContentBlock) : List (List ResourceLink) :=
  blocks.filterMap (fun b =>
    match b with
    | ContentBlock.Resources _ ls => some ls
    | _ => none)

/-- The first quiz question of `AstroPage` (the island-architecture quiz). -/
def astroQuizA : QuizQuestion :=
  (quizzesOf AstroPageBlocks).getD 0 ⟨"", [], "", ""⟩

/-- Option "B" (the correct one) of the first quiz of `AstroPage`. -/
def astroQuizAOptB : QuizOption :=
  astroQuizA.options.getD 1 ⟨"", ""⟩

/-- Option "D" (an incorrect one) of the first quiz of `AstroPage`. -/
def astroQuizAOptD : QuizOption :=
  astroQuizA.options.getD 3 ⟨"", ""⟩

/-- C1: for every registered route, navigating to its path displays exactly
that route's element; for `/docs/astro` the displayed content is exactly the
authored block sequence of `AstroPage`, which is the fixed 11-block
sequence TextBlock, MermaidDiagram, TextBlock, CodeSnippet, TextBlock,
CodeSnippet, Quiz, TextBlock, CodeSnippet, Quiz, Resources with the literal
configurations recorded in `AstroPageBlocks`. -/
theorem registered_routes_render_authored_blocks :
    (∀ r ∈ router, navigate r.path = RenderResult.display r.element) ∧
    renderNav "/docs/astro" = some AstroPageBlocks ∧
    AstroPageBlocks.map blockKind =
      [BlockKind.text, BlockKind.diagram, BlockKind.text, BlockKind.code,
       BlockKind.text, BlockKind.code, BlockKind.quiz, BlockKind.text,
       BlockKind.code, BlockKind.quiz, BlockKind.resources] :=
  ⟨by decide, rfl, by decide⟩

/-- Witness for C1 at the concrete route `/docs/astro`. -/
theorem registered_routes_render_authored_blocks_witness :
    navigate "/docs/astro" = RenderResult.display (Element.Layout Page.AstroPage) :=
  registered_routes_render_authored_blocks.1
    ⟨"/docs/astro", Element.Layout Page.AstroPage⟩ (by decide)

/-- C2: navigating to any path outside the registered route set never
throws; the total dispatch function yields the not-found outcome. -/
theorem unregistered_path_not_found (path : String)
    (h : path ∉ router.map RouteEntry.path) :
    navigate path = RenderResult.notFound := by
  unfold navigate matchRoute
  cases hf : router.find? (fun r => r.path == path) with
  | none => rfl
  | some r =>
    exfalso
    have hmem : r ∈ router := List.mem_of_find?_eq_some hf
    have hbeq := List.find?_some hf
    have hpe : r.path = path := by simpa using hbeq
    exact h (hpe ▸ List.mem_map_of_mem RouteEntry.path hmem)

/-- Witness for C2 at the concrete unregistered path `/docs/unknown`. -/
theorem unregistered_path_not_found_witness :
    navigate "/docs/unknown" = RenderResult.notFound :=
  unregistered_path_not_found "/docs/unknown" (by decide)

/-- C3: for any quiz of `AstroPage` and any option of its configured option
list, selecting the option whose id equals the configured correctAnswer
yields the correct indication together with the configured explanation, and
selecting an option with any other id yields the incorrect indication while
the same explanation is surfaced. -/
theorem quiz_selection_feedback (q : QuizQuestion)
    (_hq : q ∈ quizzesOf AstroPageBlocks) (o : QuizOption)
    (_ho : o ∈ q.options) :
    (o.id = q.correctAnswer →
      selectOption q o.id = ⟨true, q.explanation⟩) ∧
    (o.id ≠ q.correctAnswer →
      selectOption q o.id = ⟨false, q.explanation⟩) := by
  constructor
  · intro h
    simp [selectOption, h]
  · intro h
    simpa [selectOption] using beq_eq_false_iff_ne.mpr h

set_option maxRecDepth 8000 in
/-- Witness for C3 at the first quiz of `AstroPage`: selecting "B" is
reported correct, selecting "D" is reported incorrect, the explanation
surfaced both times. -/
theorem quiz_selection_feedback_witness :
    selectOption astroQuizA astroQuizAOptB.id = ⟨true, astroQuizA.explanation⟩ ∧
    selectOption astroQuizA astroQuizAOptD.id = ⟨false, astroQuizA.explanation⟩ :=
  ⟨(quiz_selection_feedback astroQuizA (by decide) astroQuizAOptB (by decide)).1 (by decide),
   (quiz_selection_feedback astroQuizA (by decide) astroQuizAOptD (by decide)).2 (by decide)⟩

/-- C4: the router registers exactly the four paths `/`,
`/docs/github-actions`, `/docs/pytorch`, `/docs/astro`, the paths are
pairwise distinct, and each is mapped to its own page (the elements are
pairwise distinct as well). -/
theorem router_paths_exact_and_unique :
    router.map RouteEntry.path =
      ["/", "/docs/github-actions", "/docs/pytorch", "/docs/astro"] ∧
    (router.map RouteEntry.path).Nodup ∧
    (router.map RouteEntry.element).Nodup :=
  ⟨rfl, by decide, by decide⟩

/-- C5: every registered route's element is the `Layout` component applied
to exactly that route's page component. -/
theorem every_route_layout_wrapped :
    router.map RouteEntry.element =
      [Element.Layout Page.HomePage, Element.Layout Page.GithubActionsPage,
       Element.Layout Page.PyTorchPage, Element.Layout Page.AstroPage] :=
  rfl

/-- C6: rendering `AstroPage` is deterministic and request-independent: the
component takes no input, so any two invocations, under any two surrounding
transient UI states, produce identical output; and the transient selection
state of a freshly mounted quiz is reset (no option selected). -/
theorem astro_page_render_deterministic :
    (∀ s t : UIState, renderAstroPage s = renderAstroPage t) ∧
    mountQuizSelection = none :=
  ⟨fun _ _ => rfl, rfl⟩

/-- C7: rendering a `Resources` block yields one link per configured entry
with destination the entry's configured url, in order; and the single
`Resources` block of `AstroPage` has exactly 7 configured entries. -/
theorem resources_links_rendered :
    (∀ links : List ResourceLink,
      (renderResources links).length = links.length ∧
      (renderResources links).map RenderedLink.dest =
        links.map ResourceLink.url) ∧
    (resourceLinksOf AstroPageBlocks).map List.length = [7] :=
  ⟨fun links => ⟨by simp [renderResources], by simp [renderResources]⟩,
   by decide⟩

/-- C8: router dispatch is by exact string match: a successful lookup
returns a route whose registered path equals the incoming path, every
registered route is found under exactly its own path, and no registered
path contains a wildcard character or a parameter segment marker. -/
theorem router_exact_string_match :
    (∀ (path : String) (r : RouteEntry),
      matchRoute path = some r → r.path = path) ∧
    (∀ r ∈ router, matchRoute r.path = some r) ∧
    (∀ r ∈ router,
      r.path.data.contains ':' = false ∧ r.path.data.contains '*' = false) := by
  refine ⟨?_, by decide, by decide⟩
  intro path r hf
  unfold matchRoute at hf
  have hbeq := List.find?_some hf
  simpa using hbeq

/-- Witness for C8 at the concrete path `/docs/astro`. -/
theorem router_exact_string_match_witness :
    matchRoute "/docs/astro" =
      some ⟨"/docs/astro", Element.Layout Page.AstroPage⟩ ∧
    ("/docs/astro" : String).data.contains ':' = false :=
  ⟨router_exact_string_match.2.1
     ⟨"/docs/astro", Element.Layout Page.AstroPage⟩ (by decide),
   (router_exact_string_match.2.2
     ⟨"/docs/astro", Element.Layout Page.AstroPage⟩ (by decide)).1⟩

/-- C9: if the external asset of the diagram block of `AstroPage` fails to
resolve, the page still renders: every other block renders exactly as
authored and the diagram block degrades to its placeholder state. -/
theorem diagram_failure_does_not_abort_page (assets : String → Option String)
    (h : assets "/diagrams/astro-architecture.mmd" = none) :
    renderPageWithAssets assets AstroPageBlocks =
      (AstroPageBlocks.map RenderedBlock.plain).set 1
        (RenderedBlock.placeholder
          "Astro\x27s island architecture showing selective hydration and static generation") := by
  simp [renderPageWithAssets, AstroPageBlocks, renderBlockWithAssets, h]

/-- Witness for C9 under an asset environment resolving nothing. -/
theorem diagram_failure_does_not_abort_page_witness :
    renderPageWithAssets (fun _ => none) AstroPageBlocks =
      (AstroPageBlocks.map RenderedBlock.plain).set 1
        (RenderedBlock.placeholder
          "Astro\x27s island architecture showing selective hydration and static generation") :=
  diagram_failure_does_not_abort_page (fun _ => none) rfl

/-- C10: every quiz configured in `AstroPage` is well-formed: its option
ids are pairwise distinct and its configured correctAnswer equals the id of
exactly one option of its option list. -/
theorem quiz_configs_wellformed (q : QuizQuestion)
    (hq : q ∈ quizzesOf AstroPageBlocks) :
    (q.options.map QuizOption.id).Nodup ∧
    q.options.countP (fun o => o.id == q.correctAnswer) = 1 := by
  fin_cases hq <;> exact ⟨by decide, by decide⟩

set_option maxRecDepth 8000 in
/-- Witness for C10 at the first quiz of `AstroPage`. -/
theorem quiz_configs_wellformed_witness :
    (astroQuizA.options.map QuizOption.id).Nodup ∧
    astroQuizA.options.countP (fun o => o.id == astroQuizA.correctAnswer) = 1 :=
  quiz_configs_wellformed astroQuizA (by decide)
